import Mathlib

/-!
Verification development for the FaceAuth Security Service.

Shallow embedding of the core of the service:
- `src/security.py` — lockout state machine (`check_lockout`, `register_fail`,
  `register_success`) over the `auth_state` key/value table of `src/db.py`;
- `src/recognition.py` — `cosine_distance`;
- `src/db.py` — `upsert_user`, `get_user`, `set_user_role` over the `users` table;
- `src/auth.py` — token issue/validate (the JWT library itself is external and is
  modelled from the spec's TokenIssuer contract);
- `src/app.py` — the `/verify` decision pipeline and `/search` ranking.

The SQLite store is modelled as an association list threaded explicitly through
each operation; machine time is an explicit `now : ℕ` parameter.
-/

namespace FaceAuth

/-! ### Lockout state (src/security.py, src/db.py `auth_state` table) -/

/-- One row of the `auth_state` table, as stored by `security.py`:
`{"fails": ..., "locked_until": ...}`. -/
structure LockState where
  fails : ℕ
  locked_until : ℕ
  deriving DecidableEq, Repr

/-- The `auth_state` table: key → value rows, in insertion order. -/
abbrev Store := List (String × LockState)

/-- src/security.py: `LOCKOUT_SECONDS = 60`. -/
def LOCKOUT_SECONDS : ℕ := 60

/-- src/security.py: `MAX_FAILS = 5`. -/
def MAX_FAILS : ℕ := 5

/-- src/security.py `_key`: `f"auth:{username or 'unknown'}:{ip}"`. -/
def auth_key (username : Option String) (ip : String) : String :=
  "auth:" ++ username.getD "unknown" ++ ":" ++ ip

/-- src/db.py `get_state`: `SELECT value_json FROM auth_state WHERE key = ?`;
returns `default` when no row exists. Read-only. -/
def get_state (st : Store) (k : String) (default : LockState) : LockState :=
  match st with
  | [] => default
  | (k', v) :: rest => if k' = k then v else get_state rest k default

/-- Whether the `auth_state` table has a row for `k` (the table has a
`PRIMARY KEY` on `key`, so at most one row matches). -/
def has_key (st : Store) (k : String) : Bool :=
  match st with
  | [] => false
  | (k', _) :: rest => k' = k || has_key rest k

/-- src/db.py `set_state`: `INSERT ... ON CONFLICT(key) DO UPDATE SET
value_json = excluded.value_json` — replaces the row in place if the key
exists, otherwise inserts a new row. -/
def set_state (st : Store) (k : String) (v : LockState) : Store :=
  match st with
  | [] => [(k, v)]
  | (k', v') :: rest => if k' = k then (k, v) :: rest else (k', v') :: set_state rest k v

/-- src/security.py `check_lockout`: reads the state (via `get_state` only —
no write), returns `(locked, fails, seconds_remaining)`. The store is threaded
through unchanged because the function performs no `set_state`. -/
def check_lockout (st : Store) (username : Option String) (ip : String) (now : ℕ) :
    (Bool × ℕ × ℕ) × Store :=
  let state := get_state st (auth_key username ip) ⟨0, 0⟩
  if state.locked_until > now then ((true, state.fails, state.locked_until - now), st)
  else ((false, state.fails, 0), st)

/-- src/security.py `register_fail`: read state, `fails = fails + 1`; if
`fails >= MAX_FAILS` set `locked_until = now + LOCKOUT_SECONDS`; write back.
Returns `((fails, locked, locked_until), store')`. -/
def register_fail (st : Store) (username : Option String) (ip : String) (now : ℕ) :
    (ℕ × Bool × ℕ) × Store :=
  let k := auth_key username ip
  let state := get_state st k ⟨0, 0⟩
  let fails := state.fails + 1
  if fails ≥ MAX_FAILS then
    ((fails, true, now + LOCKOUT_SECONDS), set_state st k ⟨fails, now + LOCKOUT_SECONDS⟩)
  else
    ((fails, false, state.locked_until), set_state st k ⟨fails, state.locked_until⟩)

/-- src/security.py `register_success`: `set_state(key, {"fails": 0, "locked_until": 0})`. -/
def register_success (st : Store) (username : Option String) (ip : String) : Store :=
  set_state st (auth_key username ip) ⟨0, 0⟩

/-- `n` consecutive `register_fail` calls on the same key at time `now`. -/
def failN (st : Store) (username : Option String) (ip : String) (now : ℕ) : ℕ → Store
  | 0 => st
  | n + 1 => (register_fail (failN st username ip now n) username ip now).2

/-! ### Basic store lemmas -/

theorem get_state_set_state_self (st : Store) (k : String) (v d : LockState) :
    get_state (set_state st k v) k d = v := by
  induction st with
  | nil => simp [set_state, get_state]
  | cons p rest ih =>
    obtain ⟨k', v'⟩ := p
    by_cases h : k' = k
    · simp [set_state, get_state, h]
    · simp [set_state, get_state, h, ih]

theorem get_state_of_fresh (st : Store) (k : String) (d : LockState)
    (h : has_key st k = false) : get_state st k d = d := by
  induction st with
  | nil => simp [get_state]
  | cons p rest ih =>
    obtain ⟨k', v'⟩ := p
    simp only [has_key, Bool.or_eq_false_iff, decide_eq_false_iff_not] at h
    simp [get_state, h.1, ih h.2]

theorem has_key_set_state_other (st : Store) (k k' : String) (v : LockState)
    (h : k' ≠ k) (hf : has_key st k' = false) :
    has_key (set_state st k v) k' = false := by
  induction st with
  | nil => simp [set_state, has_key, Ne.symm h]
  | cons p rest ih =>
    obtain ⟨k₀, v₀⟩ := p
    simp only [has_key, Bool.or_eq_false_iff, decide_eq_false_iff_not] at hf
    by_cases hk : k₀ = k
    · simp [set_state, has_key, hk, Ne.symm h, hf.2]
    · simp [set_state, has_key, hk, hf.1, ih hf.2]

theorem get_state_failN_fresh (st : Store) (username : Option String) (ip : String)
    (now : ℕ) (h : has_key st (auth_key username ip) = false) (i : ℕ) :
    get_state (failN st username ip now i) (auth_key username ip) ⟨0, 0⟩ =
      ⟨i, if MAX_FAILS ≤ i then now + LOCKOUT_SECONDS else 0⟩ := by
  induction i with
  | zero =>
    simp [failN, get_state_of_fresh st _ _ h, MAX_FAILS]
  | succ i ih =>
    simp only [failN, register_fail, ih]
    by_cases h5 : MAX_FAILS ≤ i + 1
    · simp [h5, ge_iff_le, get_state_set_state_self]
    · have hi : ¬ MAX_FAILS ≤ i := fun hc => h5 (hc.trans (Nat.le_succ i))
      simp [h5, hi, ge_iff_le, get_state_set_state_self]

/-- Claim C1: `register_fail` increments the stored fail count by exactly 1;
when the post-increment count reaches `MAX_FAILS` (5) it returns `locked = true`
and stores `locked_until = now + LOCKOUT_SECONDS`, otherwise it returns
`locked = false` and leaves `locked_until` unchanged; `register_success` resets
the stored state to `{fails := 0, locked_until := 0}` unconditionally; and 5
consecutive `register_fail` calls on a fresh key leave the key locked with
exactly `LOCKOUT_SECONDS = 60` seconds remaining. -/
theorem C1_lockout_transitions (st : Store) (username : Option String) (ip : String)
    (now : ℕ) :
    let k := auth_key username ip
    let old := get_state st k ⟨0, 0⟩
    let r := register_fail st username ip now
    r.1.1 = old.fails + 1 ∧
    get_state r.2 k ⟨0, 0⟩ =
      ⟨old.fails + 1,
        if MAX_FAILS ≤ old.fails + 1 then now + LOCKOUT_SECONDS else old.locked_until⟩ ∧
    (MAX_FAILS ≤ old.fails + 1 → r.1.2.1 = true ∧ r.1.2.2 = now + LOCKOUT_SECONDS) ∧
    (old.fails + 1 < MAX_FAILS → r.1.2.1 = false ∧ r.1.2.2 = old.locked_until) ∧
    (∀ st' : Store, get_state (register_success st' username ip) k ⟨0, 0⟩ = ⟨0, 0⟩) ∧
    (has_key st k = false →
      check_lockout (failN st username ip now 5) username ip now =
        ((true, 5, LOCKOUT_SECONDS), failN st username ip now 5)) := by
  intro k old r
  refine ⟨?_, ?_, ?_, ?_, ?_, ?_⟩
  · by_cases h5 : MAX_FAILS ≤ old.fails + 1 <;>
      simp [r, register_fail, ge_iff_le, h5, k, old]
  · by_cases h5 : MAX_FAILS ≤ old.fails + 1 <;>
      simp [r, register_fail, ge_iff_le, h5, k, old, get_state_set_state_self]
  · intro h5
    simp [r, register_fail, ge_iff_le, h5, k, old]
  · intro h5
    simp [r, register_fail, ge_iff_le, Nat.not_le.mpr h5, k, old]
  · intro st'
    simp [register_success, get_state_set_state_self, k]
  · intro hfresh
    have h5 : get_state (failN st username ip now 5) k ⟨0, 0⟩ =
        ⟨5, now + LOCKOUT_SECONDS⟩ := by
      simpa [MAX_FAILS] using get_state_failN_fresh st username ip now hfresh 5
    simp [check_lockout, k, h5, LOCKOUT_SECONDS]

/-- Witness for C1 at concrete inputs: a key with 4 prior fails locks on the next
failure; a fresh key does not lock on the first failure; and 5 consecutive
failures on a fresh key at time 100 yield `(locked, fails, remaining) = (true, 5, 60)`. -/
theorem C1_lockout_transitions_witness :
    (MAX_FAILS ≤ 4 + 1 ∧
      (register_fail [(auth_key (some "alice") "1.2.3.4", ⟨4, 0⟩)]
        (some "alice") "1.2.3.4" 100).1.2.1 = true) ∧
    (0 + 1 < MAX_FAILS ∧
      (register_fail ([] : Store) (some "alice") "1.2.3.4" 100).1.2.1 = false) ∧
    (has_key ([] : Store) (auth_key (some "alice") "1.2.3.4") = false ∧
      check_lockout (failN [] (some "alice") "1.2.3.4" 100 5) (some "alice") "1.2.3.4" 100 =
        ((true, 5, LOCKOUT_SECONDS), failN [] (some "alice") "1.2.3.4" 100 5)) :=
  ⟨⟨by decide,
    ((C1_lockout_transitions [(auth_key (some "alice") "1.2.3.4", ⟨4, 0⟩)]
      (some "alice") "1.2.3.4" 100).2.2.1 (by decide)).1⟩,
   ⟨by decide,
    ((C1_lockout_transitions [] (some "alice") "1.2.3.4" 100).2.2.2.1 (by decide)).1⟩,
   ⟨by decide,
    (C1_lockout_transitions [] (some "alice") "1.2.3.4" 100).2.2.2.2.2 (by decide)⟩⟩

/-- Claim C10: `check_lockout` never writes the lockout store: the store after a
check equals the store before it, and a check on a fresh key creates no row. -/
theorem C10_check_lockout_pure (st : Store) (username : Option String) (ip : String)
    (now : ℕ) :
    (check_lockout st username ip now).2 = st ∧
    (∀ k : String, has_key st k = false →
      has_key (check_lockout st username ip now).2 k = false) := by
  have h2 : (check_lockout st username ip now).2 = st := by
    unfold check_lockout
    dsimp only
    split <;> rfl
  exact ⟨h2, fun k hk => by rw [h2]; exact hk⟩

/-- Witness for C10: a check on a store holding only "bob"'s row leaves the
store unchanged and creates no row for "alice"'s fresh key. -/
theorem C10_check_lockout_pure_witness :
    (check_lockout [(auth_key (some "bob") "9.9.9.9", ⟨3, 0⟩)]
        (some "alice") "1.2.3.4" 100).2 =
      [(auth_key (some "bob") "9.9.9.9", ⟨3, 0⟩)] ∧
    (has_key [(auth_key (some "bob") "9.9.9.9", ⟨3, 0⟩)]
        (auth_key (some "alice") "1.2.3.4") = false ∧
      has_key (check_lockout [(auth_key (some "bob") "9.9.9.9", ⟨3, 0⟩)]
        (some "alice") "1.2.3.4" 100).2 (auth_key (some "alice") "1.2.3.4") = false) :=
  ⟨(C10_check_lockout_pure [(auth_key (some "bob") "9.9.9.9", ⟨3, 0⟩)]
      (some "alice") "1.2.3.4" 100).1,
   by decide,
   (C10_check_lockout_pure [(auth_key (some "bob") "9.9.9.9", ⟨3, 0⟩)]
      (some "alice") "1.2.3.4" 100).2 (auth_key (some "alice") "1.2.3.4") (by decide)⟩

/-! ### Concurrency model for `register_fail` (src/security.py lines 25-41)

`register_fail` is a plain read-then-write: one `get_state` (a SELECT) followed
by one `set_state` (an UPSERT), with the increment computed in Python between
the two, under no transaction or lock. Under request-parallel execution two
in-flight calls on the same key may interleave at the statement boundary, so we
split the function at that boundary. -/

/-- The read phase of `register_fail`: the `get_state` call that captures the
current row. -/
def register_fail_read (st : Store) (username : Option String) (ip : String) : LockState :=
  get_state st (auth_key username ip) ⟨0, 0⟩

/-- The compute-and-write phase of `register_fail`, applied to a previously
read state `s`. -/
def register_fail_write (st : Store) (username : Option String) (ip : String) (now : ℕ)
    (s : LockState) : (ℕ × Bool × ℕ) × Store :=
  let k := auth_key username ip
  let fails := s.fails + 1
  if fails ≥ MAX_FAILS then
    ((fails, true, now + LOCKOUT_SECONDS), set_state st k ⟨fails, now + LOCKOUT_SECONDS⟩)
  else
    ((fails, false, s.locked_until), set_state st k ⟨fails, s.locked_until⟩)

/-- The read/write decomposition is faithful: run sequentially, the two phases
are exactly `register_fail`. -/
theorem register_fail_eq_read_write (st : Store) (username : Option String)
    (ip : String) (now : ℕ) :
    register_fail st username ip now =
      register_fail_write st username ip now (register_fail_read st username ip) := rfl

/-- Two concurrent `register_fail` calls on the same key under the schedule
`read A; read B; write A; write B` — both reads happen before either write,
which sqlite's autocommit statements permit. Returns the final store. -/
def register_fail_interleaved2 (st : Store) (username : Option String) (ip : String)
    (now : ℕ) : Store :=
  let sA := register_fail_read st username ip
  let sB := register_fail_read st username ip
  let stA := (register_fail_write st username ip now sA).2
  (register_fail_write stA username ip now sB).2

/-- Claim C2 fails on the code: two concurrent `register_fail` calls on a fresh
key ("alice", N = 2) can interleave read-read-write-write, after which the
stored fail count is 1, not the initial count plus 2 — the naive read-then-write
loses an update, exactly the race the spec's design notes flag. The sequential
composition of the two phases is `register_fail` itself, so the split models the
real code. -/
theorem C2_lost_update :
    (get_state (register_fail_interleaved2 [] (some "alice") "1.2.3.4" 100)
        (auth_key (some "alice") "1.2.3.4") ⟨0, 0⟩).fails = 1 ∧
    (1 : ℕ) ≠ 0 + 2 ∧
    register_fail_write ([] : Store) (some "alice") "1.2.3.4" 100
        (register_fail_read [] (some "alice") "1.2.3.4") =
      register_fail [] (some "alice") "1.2.3.4" 100 := by
  refine ⟨by decide, by decide, rfl⟩

/-! ### MatchEngine: src/recognition.py `cosine_distance` -/

/-- Embedding vectors: fixed-dimension real vectors with the Euclidean dot
product and l2 norm, exactly the operations `np.dot` and `np.linalg.norm` used
by src/recognition.py. -/
abbrev E (n : ℕ) := EuclideanSpace ℝ (Fin n)

/-- src/recognition.py `cosine_distance`:
`denom = norm(a) * norm(b); if denom == 0: return 1.0; return 1.0 - dot(a, b) / denom`. -/
noncomputable def cosine_distance {n : ℕ} (a b : E n) : ℝ :=
  if ‖a‖ * ‖b‖ = 0 then 1 else 1 - (inner a b : ℝ) / (‖a‖ * ‖b‖)

/-- Claim C7: `cosine_distance a b` equals `1 - dot(a,b)/(|a|*|b|)` whenever the
denominator is nonzero, always lies in `[0, 2]`, and returns exactly `1` when
either input has zero norm (so it never divides by zero). -/
theorem C7_cosine_distance_range {n : ℕ} (a b : E n) :
    (‖a‖ * ‖b‖ ≠ 0 → cosine_distance a b = 1 - (inner a b : ℝ) / (‖a‖ * ‖b‖)) ∧
    0 ≤ cosine_distance a b ∧ cosine_distance a b ≤ 2 ∧
    (‖a‖ = 0 ∨ ‖b‖ = 0 → cosine_distance a b = 1) := by
  by_cases hd : ‖a‖ * ‖b‖ = 0
  · refine ⟨fun h => absurd hd h, ?_, ?_, fun _ => ?_⟩ <;>
      simp [cosine_distance, hd]
  · have hpos : 0 < ‖a‖ * ‖b‖ :=
      lt_of_le_of_ne (mul_nonneg (norm_nonneg a) (norm_nonneg b)) (Ne.symm hd)
    have habs : |(inner a b : ℝ)| ≤ ‖a‖ * ‖b‖ := abs_real_inner_le_norm a b
    obtain ⟨hlow, hhigh⟩ := abs_le.mp habs
    have hq1 : (inner a b : ℝ) / (‖a‖ * ‖b‖) ≤ 1 := (div_le_one hpos).mpr hhigh
    have hq2 : (-1 : ℝ) ≤ (inner a b : ℝ) / (‖a‖ * ‖b‖) :=
      (le_div_iff₀ hpos).mpr (by linarith)
    have hval : cosine_distance a b = 1 - (inner a b : ℝ) / (‖a‖ * ‖b‖) := by
      simp only [cosine_distance, if_neg hd]
    refine ⟨fun _ => hval, ?_, ?_, fun h => ?_⟩
    · rw [hval]; linarith
    · rw [hval]; linarith
    · rcases h with h | h <;> exact absurd (by rw [h]; ring) hd

/-- Witness for C7 at concrete vectors: the standard basis vector `e₀` of `ℝ²`
has nonzero norm product with itself and `cosine_distance e₀ e₀` is the cosine
formula; the zero vector has zero norm and `cosine_distance 0 0 = 1`. -/
theorem C7_cosine_distance_range_witness :
    (‖EuclideanSpace.single (0 : Fin 2) (1 : ℝ)‖ *
        ‖EuclideanSpace.single (0 : Fin 2) (1 : ℝ)‖ ≠ 0 ∧
      cosine_distance (EuclideanSpace.single (0 : Fin 2) (1 : ℝ))
          (EuclideanSpace.single (0 : Fin 2) (1 : ℝ)) =
        1 - (inner (EuclideanSpace.single (0 : Fin 2) (1 : ℝ))
              (EuclideanSpace.single (0 : Fin 2) (1 : ℝ)) : ℝ) /
            (‖EuclideanSpace.single (0 : Fin 2) (1 : ℝ)‖ *
              ‖EuclideanSpace.single (0 : Fin 2) (1 : ℝ)‖)) ∧
    ((‖(0 : E 2)‖ = 0 ∨ ‖(0 : E 2)‖ = 0) ∧ cosine_distance (0 : E 2) (0 : E 2) = 1) :=
  ⟨⟨by simp [EuclideanSpace.norm_single],
    (C7_cosine_distance_range _ _).1 (by simp [EuclideanSpace.norm_single])⟩,
   ⟨Or.inl norm_zero, (C7_cosine_distance_range _ _).2.2.2 (Or.inl norm_zero)⟩⟩

/-- Claim C8: scaling either argument of `cosine_distance` by a positive
constant leaves the result unchanged. -/
theorem C8_scale_invariance {n : ℕ} (k : ℝ) (a b : E n) (hk : 0 < k) :
    cosine_distance (k • a) b = cosine_distance a b ∧
    cosine_distance a (k • b) = cosine_distance a b := by
  have hk0 : k ≠ 0 := ne_of_gt hk
  have hna : ‖k • a‖ = k * ‖a‖ := by rw [norm_smul, Real.norm_eq_abs, abs_of_pos hk]
  have hnb : ‖k • b‖ = k * ‖b‖ := by rw [norm_smul, Real.norm_eq_abs, abs_of_pos hk]
  constructor
  · by_cases hd : ‖a‖ * ‖b‖ = 0
    · have hz : ‖k • a‖ * ‖b‖ = 0 := by rw [hna, mul_assoc, hd, mul_zero]
      simp [cosine_distance, hd, hz]
    · have hd' : ‖k • a‖ * ‖b‖ ≠ 0 := by
        rw [hna, mul_assoc]; exact mul_ne_zero hk0 hd
      simp only [cosine_distance, if_neg hd, if_neg hd']
      rw [real_inner_smul_left, hna, mul_assoc, mul_div_mul_left _ _ hk0]
  · by_cases hd : ‖a‖ * ‖b‖ = 0
    · have hz : ‖a‖ * ‖k • b‖ = 0 := by
        rw [hnb, mul_comm k ‖b‖, ← mul_assoc, hd, zero_mul]
      simp [cosine_distance, hd, hz]
    · have hd' : ‖a‖ * ‖k • b‖ ≠ 0 := by
        rw [hnb, mul_comm k ‖b‖, ← mul_assoc]; exact mul_ne_zero hd hk0
      simp only [cosine_distance, if_neg hd, if_neg hd']
      rw [real_inner_smul_right, hnb, mul_comm k ‖b‖, ← mul_assoc,
        mul_comm (‖a‖ * ‖b‖) k, mul_div_mul_left _ _ hk0]

/-- Witness for C8: scaling `e₀` by `k = 2` leaves its cosine distance to `e₁`
unchanged, on both sides. -/
theorem C8_scale_invariance_witness :
    (0 : ℝ) < 2 ∧
    cosine_distance ((2 : ℝ) • EuclideanSpace.single (0 : Fin 2) (1 : ℝ))
        (EuclideanSpace.single (1 : Fin 2) (1 : ℝ)) =
      cosine_distance (EuclideanSpace.single (0 : Fin 2) (1 : ℝ))
        (EuclideanSpace.single (1 : Fin 2) (1 : ℝ)) ∧
    cosine_distance (EuclideanSpace.single (0 : Fin 2) (1 : ℝ))
        ((2 : ℝ) • EuclideanSpace.single (1 : Fin 2) (1 : ℝ)) =
      cosine_distance (EuclideanSpace.single (0 : Fin 2) (1 : ℝ))
        (EuclideanSpace.single (1 : Fin 2) (1 : ℝ)) :=
  ⟨by norm_num, (C8_scale_invariance 2 _ _ (by norm_num)).1,
    (C8_scale_invariance 2 _ _ (by norm_num)).2⟩

/-! ### Users table: src/db.py `users` rows and src/app.py `/enroll` -/

/-- One row of the `users` table. The `role` column is `NOT NULL DEFAULT 'user'`
(and the migration backfills it), so it always holds a string. -/
structure UserRow (n : ℕ) where
  username : String
  embedding : E n
  role : String
  created_at : ℕ

/-- The dictionary returned by src/db.py `get_user`:
`{"username": ..., "role": ..., "embedding": ...}`. -/
structure UserView (n : ℕ) where
  username : String
  role : String
  embedding : E n

/-- src/db.py `get_user`: `SELECT username, embedding_json, role FROM users
WHERE username = ?` — `username` is UNIQUE, so the first matching row is the
row. -/
def get_user {n : ℕ} (users : List (UserRow n)) (username : String) :
    Option (UserView n) :=
  match users with
  | [] => none
  | u :: rest =>
    if u.username = username then some ⟨u.username, u.role, u.embedding⟩
    else get_user rest username

/-- src/db.py `upsert_user`: `INSERT ... ON CONFLICT(username) DO UPDATE SET
embedding_json = excluded.embedding_json, role = COALESCE(users.role,
excluded.role)`. Because `users.role` is `NOT NULL`, the `COALESCE` always
keeps the existing role on conflict; `created_at` is not in the update list, so
it is kept too. -/
def upsert_user {n : ℕ} (users : List (UserRow n)) (username : String)
    (embedding : E n) (role : String) (now : ℕ) : List (UserRow n) :=
  match users with
  | [] => [⟨username, embedding, role, now⟩]
  | u :: rest =>
    if u.username = username then ⟨u.username, embedding, u.role, u.created_at⟩ :: rest
    else u :: upsert_user rest username embedding role now

/-- src/db.py `set_user_role`: `UPDATE users SET role = ? WHERE username = ?`,
returning whether a row was updated (`rowcount > 0`); `username` is UNIQUE so
at most one row matches. -/
def set_user_role {n : ℕ} (users : List (UserRow n)) (username : String)
    (role : String) : List (UserRow n) × Bool :=
  match users with
  | [] => ([], false)
  | u :: rest =>
    if u.username = username then
      (⟨u.username, u.embedding, role, u.created_at⟩ :: rest, true)
    else
      let r := set_user_role rest username role
      (u :: r.1, r.2)

/-- src/recognition.py `FaceResult`, as consumed by src/app.py: the embedding
vector plus the face-count and quality flags delivered by the extraction
collaborator. -/
structure FaceResult (n : ℕ) where
  embedding : E n
  face_count : ℕ
  quality_ok : Bool
  quality_reason : Option String

/-- src/app.py `/enroll` after a successful extraction: reject on the quality
gate, then on face count ≠ 1, else store the embedding with the default role
"user" via `upsert_user`. -/
def enroll {n : ℕ} (users : List (UserRow n)) (username : String)
    (res : FaceResult n) (now : ℕ) : Except String (List (UserRow n)) :=
  if res.quality_ok = false then Except.error "quality_gate"
  else if res.face_count ≠ 1 then Except.error "invalid_face_count"
  else Except.ok (upsert_user users username res.embedding "user" now)

theorem get_user_upsert_self {n : ℕ} (users : List (UserRow n)) (username : String)
    (emb : E n) (role : String) (now : ℕ) (v : UserView n)
    (h : get_user users username = some v) :
    get_user (upsert_user users username emb role now) username =
      some ⟨username, v.role, emb⟩ := by
  induction users with
  | nil => simp [get_user] at h
  | cons u rest ih =>
    by_cases hu : u.username = username
    · simp only [get_user, if_pos hu] at h
      obtain ⟨rfl⟩ := Option.some_injective _ h
      simp [upsert_user, get_user, hu]
    · simp only [get_user, if_neg hu] at h
      simp [upsert_user, get_user, hu, ih h]

theorem get_user_upsert_other {n : ℕ} (users : List (UserRow n)) (username : String)
    (emb : E n) (role : String) (now : ℕ) (other : String) (h : other ≠ username) :
    get_user (upsert_user users username emb role now) other =
      get_user users other := by
  induction users with
  | nil => simp [upsert_user, get_user, Ne.symm h]
  | cons u rest ih =>
    by_cases hu : u.username = username
    · have hne : ¬ u.username = other := fun hc => h (hc.symm.trans hu)
      simp [upsert_user, get_user, hu, hne, Ne.symm h, h]
    · by_cases ho : u.username = other
      · simp [upsert_user, get_user, hu, ho, h]
      · simp [upsert_user, get_user, hu, ho, h, ih]

theorem set_user_role_spec {n : ℕ} (users : List (UserRow n)) (username : String)
    (role : String) (v : UserView n) (h : get_user users username = some v) :
    (set_user_role users username role).2 = true ∧
    get_user (set_user_role users username role).1 username =
      some ⟨username, role, v.embedding⟩ ∧
    (∀ other : String, other ≠ username →
      get_user (set_user_role users username role).1 other = get_user users other) := by
  induction users with
  | nil => simp [get_user] at h
  | cons u rest ih =>
    by_cases hu : u.username = username
    · simp only [get_user, if_pos hu] at h
      obtain ⟨rfl⟩ := Option.some_injective _ h
      refine ⟨by simp [set_user_role, hu], by simp [set_user_role, get_user, hu], ?_⟩
      intro other ho
      have hne : ¬ u.username = other := fun hc => ho (hc.symm.trans hu)
      simp [set_user_role, get_user, hu, hne, Ne.symm ho]
    · simp only [get_user, if_neg hu] at h
      obtain ⟨h1, h2, h3⟩ := ih h
      refine ⟨by simpa [set_user_role, hu] using h1, ?_, ?_⟩
      · have : ¬ u.username = username := hu
        simpa [set_user_role, get_user, hu, this] using h2
      · intro other ho
        by_cases huo : u.username = other
        · simp [set_user_role, get_user, hu, huo, ho]
        · simpa [set_user_role, get_user, hu, huo, ho] using h3 other ho

/-- Claim C9: re-enrolling an existing username replaces the stored embedding
but keeps the previously stored role, even though the enrollment path passes
the default role "user" to `upsert_user`; rows of other usernames are
untouched; and the only other mutation of a user row is the admin role change,
which replaces exactly the role and reports success. -/
theorem C9_reenroll_preserves_role {n : ℕ} (users : List (UserRow n))
    (username : String) (emb : E n) (role : String) (now : ℕ) (v : UserView n)
    (h : get_user users username = some v) :
    get_user (upsert_user users username emb role now) username =
      some ⟨username, v.role, emb⟩ ∧
    (∀ other : String, other ≠ username →
      get_user (upsert_user users username emb role now) other = get_user users other) ∧
    (∀ res : FaceResult n, res.quality_ok = true → res.face_count = 1 →
      enroll users username res now =
        Except.ok (upsert_user users username res.embedding "user" now)) ∧
    (set_user_role users username role).2 = true ∧
    get_user (set_user_role users username role).1 username =
      some ⟨username, role, v.embedding⟩ ∧
    (∀ other : String, other ≠ username →
      get_user (set_user_role users username role).1 other = get_user users other) := by
  obtain ⟨h1, h2, h3⟩ := set_user_role_spec users username role v h
  refine ⟨get_user_upsert_self users username emb role now v h,
    fun other ho => get_user_upsert_other users username emb role now other ho,
    ?_, h1, h2, h3⟩
  intro res hq hc
  simp [enroll, hq, hc]

/-- The first standard basis vector of `ℝ²`, used as a concrete embedding. -/
noncomputable def embA : E 2 := EuclideanSpace.single 0 1

/-- The second standard basis vector of `ℝ²`, used as a concrete embedding. -/
noncomputable def embB : E 2 := EuclideanSpace.single 1 1

/-- A concrete users table: "alice" with role "admin" and "bob" with role "user". -/
noncomputable def usersAB : List (UserRow 2) :=
  [⟨"alice", embA, "admin", 7⟩, ⟨"bob", embB, "user", 8⟩]

/-- Witness for C9: "alice" is enrolled with role "admin"; re-enrolling her with
a new embedding and the default role "user" keeps role "admin" and replaces the
embedding, while "bob"'s row is untouched. -/
theorem C9_reenroll_preserves_role_witness :
    get_user usersAB "alice" = some ⟨"alice", "admin", embA⟩ ∧
    get_user (upsert_user usersAB "alice" embB "user" 9) "alice" =
      some ⟨"alice", "admin", embB⟩ ∧
    get_user (upsert_user usersAB "alice" embB "user" 9) "bob" =
      get_user usersAB "bob" :=
  ⟨by simp [usersAB, get_user],
   (C9_reenroll_preserves_role usersAB "alice" embB "user" 9 ⟨"alice", "admin", embA⟩
      (by simp [usersAB, get_user])).1,
   (C9_reenroll_preserves_role usersAB "alice" embB "user" 9 ⟨"alice", "admin", embA⟩
      (by simp [usersAB, get_user])).2.1 "bob" (by decide)⟩

/-! ### TokenIssuer: src/auth.py. The `jose` JWT library is an external
collaborator; its HMAC signing and claim validation are modelled from the
spec's TokenIssuer contract (signed claims, validity window `[iat, exp)`). -/

/-- src/auth.py: `ACCESS_TOKEN_TTL_SECONDS` (default 3600). -/
def ACCESS_TOKEN_TTL_SECONDS : ℕ := 3600

/-- The JWT claim set produced by src/auth.py `create_access_token`:
`{"sub": ..., "role": ..., "iat": ..., "exp": ...}`. -/
structure TokenPayload where
  sub : String
  role : String
  iat : ℕ
  exp : ℕ
  deriving DecidableEq, Repr

/-- Modelled from the spec: the MAC the external `jose` library attaches when
encoding — it verifies exactly when recomputing it with the same secret over
the same payload yields the same value. -/
structure Signature where
  secret : String
  signed : TokenPayload
  deriving DecidableEq, Repr

/-- Modelled from the spec: recomputing the MAC with a secret over a payload. -/
def jwt_sign (secret : String) (p : TokenPayload) : Signature := ⟨secret, p⟩

/-- Modelled from the spec: `jwt.encode` output — the claim set together with
its signature. -/
structure Token where
  payload : TokenPayload
  sig : Signature
  deriving DecidableEq, Repr

/-- Modelled from the spec: `jwt.encode(payload, secret, algorithm)`. -/
def jwt_encode (p : TokenPayload) (secret : String) : Token := ⟨p, jwt_sign secret p⟩

/-- Modelled from the spec: `jwt.decode(token, secret, algorithms)` validates
the signature and the `exp` claim against the current time (validity window
`[iat, exp)`), raising `JWTError` otherwise. -/
def jwt_decode (t : Token) (secret : String) (now : ℕ) : Except String TokenPayload :=
  if t.sig = jwt_sign secret t.payload ∧ now < t.payload.exp then Except.ok t.payload
  else Except.error "JWTError"

/-- src/auth.py `create_access_token`: payload `{sub := username, role := role,
iat := now, exp := now + ACCESS_TOKEN_TTL_SECONDS}` signed with the secret. -/
def create_access_token (username : String) (role : String) (now : ℕ)
    (secret : String) : Token :=
  jwt_encode ⟨username, role, now, now + ACCESS_TOKEN_TTL_SECONDS⟩ secret

/-- src/auth.py `decode_token`: `jwt.decode`, turning `JWTError` into the 401
"Invalid or expired token" failure. A pure function of the token, the secret
and the clock — it touches no store. -/
def decode_token (t : Token) (secret : String) (now : ℕ) : Except String TokenPayload :=
  match jwt_decode t secret now with
  | Except.ok p => Except.ok p
  | Except.error _ => Except.error "Invalid or expired token"

/-- Claim C6: decoding a freshly issued token before its TTL (3600 s) elapses
returns the claims with subject `u` and role `r`; once `now' ≥ exp` the same
token is rejected; and any token whose signature does not verify against the
process secret is rejected. `decode_token` is a pure function of its
arguments, so validation mutates no state. -/
theorem C6_token_roundtrip (u r secret : String) (now now' : ℕ) :
    (now' < now + ACCESS_TOKEN_TTL_SECONDS →
      decode_token (create_access_token u r now secret) secret now' =
        Except.ok ⟨u, r, now, now + ACCESS_TOKEN_TTL_SECONDS⟩) ∧
    (now + ACCESS_TOKEN_TTL_SECONDS ≤ now' →
      decode_token (create_access_token u r now secret) secret now' =
        Except.error "Invalid or expired token") ∧
    (∀ t : Token, t.sig ≠ jwt_sign secret t.payload →
      decode_token t secret now' = Except.error "Invalid or expired token") := by
  refine ⟨fun h => ?_, fun h => ?_, fun t h => ?_⟩
  · simp [decode_token, jwt_decode, create_access_token, jwt_encode, h]
  · simp [decode_token, jwt_decode, create_access_token, jwt_encode, Nat.not_lt.mpr h]
  · simp [decode_token, jwt_decode, h]

/-- Witness for C6: a token issued to "alice"/"user" at `now = 1000` with
secret "s" decodes at `now' = 1000` to her claims; at `now' = 4600 = exp` it is
rejected; and the same payload signed with the wrong secret is rejected. -/
theorem C6_token_roundtrip_witness :
    ((1000 : ℕ) < 1000 + ACCESS_TOKEN_TTL_SECONDS ∧
      decode_token (create_access_token "alice" "user" 1000 "s") "s" 1000 =
        Except.ok ⟨"alice", "user", 1000, 1000 + ACCESS_TOKEN_TTL_SECONDS⟩) ∧
    (1000 + ACCESS_TOKEN_TTL_SECONDS ≤ (4600 : ℕ) ∧
      decode_token (create_access_token "alice" "user" 1000 "s") "s" 4600 =
        Except.error "Invalid or expired token") ∧
    ((Token.mk ⟨"alice", "user", 1000, 4600⟩ (jwt_sign "other" ⟨"alice", "user", 1000, 4600⟩)).sig ≠
        jwt_sign "s" (Token.mk ⟨"alice", "user", 1000, 4600⟩
          (jwt_sign "other" ⟨"alice", "user", 1000, 4600⟩)).payload ∧
      decode_token (Token.mk ⟨"alice", "user", 1000, 4600⟩
          (jwt_sign "other" ⟨"alice", "user", 1000, 4600⟩)) "s" 1000 =
        Except.error "Invalid or expired token") :=
  ⟨⟨by decide, (C6_token_roundtrip "alice" "user" "s" 1000 1000).1 (by decide)⟩,
   ⟨by decide, (C6_token_roundtrip "alice" "user" "s" 1000 4600).2.1 (by decide)⟩,
   ⟨by decide, (C6_token_roundtrip "alice" "user" "s" 1000 1000).2.2 _ (by decide)⟩⟩

/-! ### VerificationPipeline: src/app.py `/verify` -/

/-- src/app.py: `MATCH_THRESHOLD = 0.35`. -/
noncomputable def MATCH_THRESHOLD : ℝ := 0.35

/-- src/app.py: `MOTION_THRESHOLD = 0.03`. -/
noncomputable def MOTION_THRESHOLD : ℝ := 0.03

/-- The terminal outcome of one `/verify` request, one constructor per HTTP
response shape of src/app.py: 429, 404, 400 (decode), 400 (quality), 400
(face count), 200 and 401. -/
inductive VerifyResult where
  | lockedOut (remaining : ℕ)
  | unknownUser
  | decodeError (msg : String)
  | qualityFail (q1 q2 : Option String)
  | faceCountFail (c1 c2 : ℕ)
  | success (token : Token) (role : String) (d1 d2 motion : ℝ)
  | unauthenticated (d1 d2 motion : ℝ)

/-- What one `/verify` request produces: the response, the lockout store after
the request, the audit events appended (event types, in order), and how many
times `extract_embedding` was invoked. -/
structure VerifyOut where
  result : VerifyResult
  lockStore : Store
  events : List String
  extract_calls : ℕ

/-- src/app.py `/verify`. The extraction collaborator (`extract_embedding`) and
the liveness collaborator (`motion_heuristic`, whose cv2 internals are
external) are parameters; raw probe bytes are an abstract type `β`. The body
follows the source line by line: lockout check, user lookup, extraction of both
probes (the second is not attempted if the first raises), quality gate, face
count gate, distances, motion, and the three-way decision. -/
noncomputable def verify {β : Type} {n : ℕ}
    (extract : β → Except String (FaceResult n)) (motion_heuristic : β → β → ℝ)
    (users : List (UserRow n)) (st : Store) (username ip : String) (b1 b2 : β)
    (now : ℕ) (secret : String) : VerifyOut :=
  let c := check_lockout st (some username) ip now
  if c.1.1 then ⟨.lockedOut c.1.2.2, c.2, ["verify_locked"], 0⟩
  else
    match get_user users username with
    | none => ⟨.unknownUser, c.2, ["verify_failed"], 0⟩
    | some user =>
      match extract b1 with
      | .error e => ⟨.decodeError e, c.2, ["verify_error"], 1⟩
      | .ok r1 =>
        match extract b2 with
        | .error e => ⟨.decodeError e, c.2, ["verify_error"], 2⟩
        | .ok r2 =>
          if r1.quality_ok = false ∨ r2.quality_ok = false then
            ⟨.qualityFail r1.quality_reason r2.quality_reason,
              (register_fail c.2 (some username) ip now).2, ["verify_failed"], 2⟩
          else if r1.face_count ≠ 1 ∨ r2.face_count ≠ 1 then
            ⟨.faceCountFail r1.face_count r2.face_count,
              (register_fail c.2 (some username) ip now).2, ["verify_failed"], 2⟩
          else
            let d1 := cosine_distance r1.embedding user.embedding
            let d2 := cosine_distance r2.embedding user.embedding
            let motion := motion_heuristic b1 b2
            if d1 ≤ MATCH_THRESHOLD ∧ d2 ≤ MATCH_THRESHOLD ∧ MOTION_THRESHOLD ≤ motion then
              ⟨.success (create_access_token username user.role now secret) user.role d1 d2 motion,
                register_success c.2 (some username) ip, ["verify_success"], 2⟩
            else
              ⟨.unauthenticated d1 d2 motion,
                (register_fail c.2 (some username) ip now).2, ["verify_failed"], 2⟩

theorem check_lockout_snd (st : Store) (username : Option String) (ip : String)
    (now : ℕ) : (check_lockout st username ip now).2 = st := by
  unfold check_lockout
  dsimp only
  split <;> rfl

/-- Claim C4: a `/verify` request on a locked key (stored `locked_until > now`)
returns the 429 outcome carrying the remaining seconds, leaves the lockout
store untouched, appends exactly one `verify_locked` audit event, and never
invokes extraction (and hence computes no distance). -/
theorem C4_locked_request {β : Type} {n : ℕ} (extract : β → Except String (FaceResult n))
    (motion_heuristic : β → β → ℝ) (users : List (UserRow n)) (st : Store)
    (username ip : String) (b1 b2 : β) (now : ℕ) (secret : String)
    (h : (check_lockout st (some username) ip now).1.1 = true) :
    verify extract motion_heuristic users st username ip b1 b2 now secret =
      ⟨VerifyResult.lockedOut
          ((get_state st (auth_key (some username) ip) ⟨0, 0⟩).locked_until - now),
        st, ["verify_locked"], 0⟩ := by
  by_cases hl : (get_state st (auth_key (some username) ip) ⟨0, 0⟩).locked_until > now
  · simp [verify, check_lockout, hl]
  · simp [check_lockout, hl] at h

/-- Witness for C4: "alice" is locked until 160 and checks in at time 100; the
request is rejected with 60 seconds remaining, the store is unchanged, one
`verify_locked` event is emitted, and extraction is never invoked. -/
theorem C4_locked_request_witness :
    (check_lockout [(auth_key (some "alice") "1.2.3.4", ⟨5, 160⟩)]
        (some "alice") "1.2.3.4" 100).1.1 = true ∧
    verify (fun _ : Unit => Except.error "unused") (fun _ _ => (0 : ℝ))
        ([] : List (UserRow 2)) [(auth_key (some "alice") "1.2.3.4", ⟨5, 160⟩)]
        "alice" "1.2.3.4" () () 100 "s" =
      ⟨VerifyResult.lockedOut 60, [(auth_key (some "alice") "1.2.3.4", ⟨5, 160⟩)],
        ["verify_locked"], 0⟩ :=
  ⟨by decide,
   C4_locked_request (fun _ : Unit => Except.error "unused") (fun _ _ => (0 : ℝ))
     ([] : List (UserRow 2)) [(auth_key (some "alice") "1.2.3.4", ⟨5, 160⟩)]
     "alice" "1.2.3.4" () () 100 "s" (by decide)⟩

/-- Claim C3: once the lockout, identity, decode, quality and face-count gates
have passed, the request is authenticated — returning the 200 outcome with a
token — exactly when `d1 ≤ MATCH_THRESHOLD`, `d2 ≤ MATCH_THRESHOLD` and
`motion ≥ MOTION_THRESHOLD` all hold; if any of the three fails, the outcome is
the 401 `unauthenticated` response, reached after a `register_fail` on the key,
with one `verify_failed` audit event. -/
theorem C3_decision_rule {β : Type} {n : ℕ} (extract : β → Except String (FaceResult n))
    (motion_heuristic : β → β → ℝ) (users : List (UserRow n)) (st : Store)
    (username ip : String) (b1 b2 : β) (now : ℕ) (secret : String)
    (user : UserView n) (r1 r2 : FaceResult n)
    (hlock : (check_lockout st (some username) ip now).1.1 = false)
    (huser : get_user users username = some user)
    (h1 : extract b1 = Except.ok r1) (h2 : extract b2 = Except.ok r2)
    (hq1 : r1.quality_ok = true) (hq2 : r2.quality_ok = true)
    (hc1 : r1.face_count = 1) (hc2 : r2.face_count = 1) :
    let d1 := cosine_distance r1.embedding user.embedding
    let d2 := cosine_distance r2.embedding user.embedding
    let motion := motion_heuristic b1 b2
    let out := verify extract motion_heuristic users st username ip b1 b2 now secret
    (out.result = VerifyResult.success (create_access_token username user.role now secret)
        user.role d1 d2 motion ↔
      d1 ≤ MATCH_THRESHOLD ∧ d2 ≤ MATCH_THRESHOLD ∧ MOTION_THRESHOLD ≤ motion) ∧
    (¬(d1 ≤ MATCH_THRESHOLD ∧ d2 ≤ MATCH_THRESHOLD ∧ MOTION_THRESHOLD ≤ motion) →
      out.result = VerifyResult.unauthenticated d1 d2 motion ∧
      out.lockStore = (register_fail st (some username) ip now).2 ∧
      out.events = ["verify_failed"]) := by
  dsimp only
  have hst := check_lockout_snd st (some username) ip now
  by_cases hauth : cosine_distance r1.embedding user.embedding ≤ MATCH_THRESHOLD ∧
      cosine_distance r2.embedding user.embedding ≤ MATCH_THRESHOLD ∧
      MOTION_THRESHOLD ≤ motion_heuristic b1 b2
  · constructor
    · simp [verify, hlock, huser, h1, h2, hq1, hq2, hc1, hc2, hauth]
    · intro hc
      exact absurd hauth hc
  · constructor
    · simp [verify, hlock, huser, h1, h2, hq1, hq2, hc1, hc2, hauth]
    · intro _
      refine ⟨?_, ?_, ?_⟩ <;>
        simp [verify, hlock, huser, h1, h2, hq1, hq2, hc1, hc2, hauth, hst]

theorem cosine_distance_self {n : ℕ} (a : E n) (ha : a ≠ 0) :
    cosine_distance a a = 0 := by
  have hna : ‖a‖ ≠ 0 := norm_ne_zero_iff.mpr ha
  have hd : ‖a‖ * ‖a‖ ≠ 0 := mul_ne_zero hna hna
  simp only [cosine_distance, if_neg hd]
  rw [real_inner_self_eq_norm_mul_norm, div_self hd]
  ring

/-- Witness for C3: "alice" (enrolled with template `embA`, role "admin")
verifies with two probes whose embeddings equal the template (distance 0) and
motion score 0.05: the result is the 200 outcome with her token. -/
theorem C3_decision_rule_witness :
    (check_lockout [] (some "alice") "1.2.3.4" 100).1.1 = false ∧
    get_user usersAB "alice" = some ⟨"alice", "admin", embA⟩ ∧
    (verify (fun _ : Unit => Except.ok (⟨embA, 1, true, none⟩ : FaceResult 2))
        (fun _ _ => (0.05 : ℝ)) usersAB [] "alice" "1.2.3.4" () () 100 "s").result =
      VerifyResult.success (create_access_token "alice" "admin" 100 "s") "admin"
        (cosine_distance embA embA) (cosine_distance embA embA) 0.05 := by
  have hnorm : ‖embA‖ = (1 : ℝ) := by
    simp [embA, EuclideanSpace.norm_single]
  have hA : embA ≠ 0 := by
    intro h
    rw [h, norm_zero] at hnorm
    norm_num at hnorm
  have hd : cosine_distance embA embA ≤ MATCH_THRESHOLD := by
    rw [cosine_distance_self embA hA, MATCH_THRESHOLD]
    norm_num
  have hm : MOTION_THRESHOLD ≤ (0.05 : ℝ) := by
    rw [MOTION_THRESHOLD]
    norm_num
  refine ⟨by decide, by simp [usersAB, get_user], ?_⟩
  exact (C3_decision_rule (fun _ : Unit => Except.ok (⟨embA, 1, true, none⟩ : FaceResult 2))
    (fun _ _ => (0.05 : ℝ)) usersAB [] "alice" "1.2.3.4" () () 100 "s"
    ⟨"alice", "admin", embA⟩ ⟨embA, 1, true, none⟩ ⟨embA, 1, true, none⟩
    (by decide) (by simp [usersAB, get_user]) rfl rfl rfl rfl rfl rfl).1.mpr
    ⟨hd, hd, hm⟩

/-! ### SearchRanker: src/app.py `/search` -/

/-- One entry of the `/search` response:
`{"username": ..., "role": ..., "distance": ...}`. -/
structure SearchEntry where
  username : String
  role : String
  distance : ℝ

/-- The sort key of `candidates.sort(key=lambda x: x["distance"])`: compare by
distance only. -/
def distLe (x y : SearchEntry) : Prop := x.distance ≤ y.distance

noncomputable instance : DecidableRel distLe :=
  fun x y => inferInstanceAs (Decidable (x.distance ≤ y.distance))

instance : IsTotal SearchEntry distLe := ⟨fun a b => le_total a.distance b.distance⟩

instance : IsTrans SearchEntry distLe := ⟨fun _ _ _ hab hbc => le_trans hab hbc⟩

/-- src/app.py `/search` after its gates: build one candidate per enrolled user
in table order, sort ascending by distance (Python's `list.sort` is stable, as
is `List.insertionSort`), then slice `[: max(1, min(top_k, 25))]`. -/
noncomputable def search {n : ℕ} (probe : E n) (users : List (UserRow n))
    (top_k : ℤ) : List SearchEntry :=
  let candidates :=
    users.map fun u => SearchEntry.mk u.username u.role (cosine_distance probe u.embedding)
  (candidates.insertionSort distLe).take (max 1 (min top_k 25)).toNat

/-- The users table with "bob" enrolled before "alice". -/
noncomputable def usersBA : List (UserRow 2) :=
  [⟨"bob", embB, "user", 8⟩, ⟨"alice", embA, "admin", 7⟩]

/-- Claim C5's tie-breaking clause fails on the code: searching with the zero
probe gives every template the same distance 1, and the results keep the table
order ["bob", "alice"] — the stable sort breaks ties by enrollment order, not
by username lexical order, which would demand ["alice", "bob"]. -/
theorem C5_counterexample_tie_order :
    (search (0 : E 2) usersBA 5).map SearchEntry.username = ["bob", "alice"] ∧
    cosine_distance (0 : E 2) embB = cosine_distance (0 : E 2) embA ∧
    (["bob", "alice"] : List String) ≠ ["alice", "bob"] := by
  have hb : cosine_distance (0 : E 2) embB = 1 := by simp [cosine_distance]
  have ha : cosine_distance (0 : E 2) embA = 1 := by simp [cosine_distance]
  refine ⟨?_, by rw [ha, hb], by decide⟩
  simp [search, usersBA, List.insertionSort, List.orderedInsert, distLe, hb, ha]

/-- Claim C5, amended: `search` ranks every enrolled template (the sorted pool
is a permutation of the candidate list), the returned list is sorted ascending
by distance, and the number of returned entries is
`min(clamp(top_k, 1, 25), #users)` — so `top_k` of 0, 3, 100 against 10 users
return 1, 3, 10 entries. Ties are kept in table order by the stable sort, not
broken by username lexical order. -/
theorem C5_search_rank {n : ℕ} (probe : E n) (users : List (UserRow n)) (top_k : ℤ) :
    (search probe users top_k).length =
      min (max 1 (min top_k 25)).toNat users.length ∧
    List.Sorted distLe (search probe users top_k) ∧
    List.Perm
      ((users.map fun u =>
        SearchEntry.mk u.username u.role (cosine_distance probe u.embedding)).insertionSort distLe)
      (users.map fun u =>
        SearchEntry.mk u.username u.role (cosine_distance probe u.embedding)) := by
  refine ⟨?_, ?_, List.perm_insertionSort distLe _⟩
  · rw [search, List.length_take, List.Perm.length_eq (List.perm_insertionSort distLe _),
      List.length_map]
  · exact List.Pairwise.sublist (List.take_sublist _ _)
      (List.sorted_insertionSort distLe _)

end FaceAuth
